import Mathlib

/-!
Shallow embedding of the expression compiler / vectorized evaluator of
`src/execution/expression.rs` (DataFusion expression compilation core),
together with theorems checking the specification's claims against it.

Modelling conventions:
  * Rust `Result<T, ExecutionError>` together with the possibility of a
    process abort (`panic!`, `assert_eq!`, `unimplemented!`) is modelled by
    the three-valued `Outcome` type; `Outcome.panic` marks an abort.
  * `RuntimeExpr::get_func`, which panics on the aggregate variant, is
    modelled as an `Option`-valued function where `none` marks the panic.
  * Reference-counted closures (`Rc<Fn(&RecordBatch) -> Result<ArrayRef>>`)
    are modelled as Lean functions `RecordBatch → Outcome ArrayRef`.
  * The per-element arithmetic/comparison kernels live in the external
    `arrow` crate (`arrow::array_ops`); per §4.2 of the spec they are
    "standard elementwise vectorized numeric operations".  They are
    modelled as elementwise application of the native scalar operation,
    with two's-complement wrap-around on the integer widths; the payloads
    of `Float32`/`Float64` arrays are modelled as exact integer-carried
    values, since IEEE bit-level semantics belong to the external crate,
    not to this core's dispatch logic.
-/

/-- Element data types carried by columns.  The source uses
`arrow::datatypes::DataType`; only the members that this core dispatches on
are modelled. -/
inductive DataType
  | int8
  | int16
  | int32
  | int64
  | uint8
  | uint16
  | uint32
  | uint64
  | float32
  | float64
  | boolean
deriving DecidableEq

/-- The ten numeric element types supported by the binary-operator dispatch
(`math_ops` / `comparison_ops` in the source). -/
def numericTypes : List DataType :=
  [.int8, .int16, .int32, .int64, .uint8, .uint16, .uint32, .uint64,
   .float32, .float64]

/-- A columnar array (`arrow::array::ArrayRef`).  Numeric arrays of every
element type carry their values as mathematical integers tagged with the
element type; boolean arrays carry booleans. -/
inductive ArrayRef
  | numeric (dt : DataType) (values : List Int)
  | boolean (values : List Bool)
deriving DecidableEq

/-- `Array::data_type()` of the source. -/
def ArrayRef.dataType : ArrayRef → DataType
  | .numeric dt _ => dt
  | .boolean _ => .boolean

/-- `Array::len()` of the source. -/
def ArrayRef.len : ArrayRef → Nat
  | .numeric _ vs => vs.length
  | .boolean vs => vs.length

/-- The downcast step of the `binary_op!` macro
(`as_any().downcast_ref::<T>().unwrap()`): extract the integer payload of a
numeric array.  The empty-list fallback is unreachable whenever the
dispatch matched a numeric data type. -/
def ArrayRef.intValues : ArrayRef → List Int
  | .numeric _ vs => vs
  | .boolean _ => []

/-- One field of a schema (`arrow::datatypes::Field`): a name and a data
type. -/
structure SchemaField where
  name : String
  dataType : DataType
deriving DecidableEq

/-- `arrow::datatypes::Schema`: an ordered list of fields.
`Schema::field(i)` is modelled by list indexing. -/
abbrev Schema := List SchemaField

/-- `arrow::record_batch::RecordBatch`: an ordered list of equal-length
columns.  Evaluators only access `column(i)`. -/
structure RecordBatch where
  columns : List ArrayRef

/-- The error taxonomy of `ExecutionError` used by this core.
Modelled from the spec: the error module (`super::error`) is not under
`src/`; §7 of the spec gives exactly the two members used here,
NotImplemented and General(description). -/
inductive ExecutionError
  | notImplemented
  | general (description : String)
deriving DecidableEq

/-- Three-valued outcome of running a piece of the source: a returned
value, a returned `ExecutionError`, or a process abort (`panic!` /
`assert_eq!` / `unimplemented!`). -/
inductive Outcome (α : Type)
  | ok (a : α)
  | error (e : ExecutionError)
  | panic
deriving DecidableEq

/-- Compiled expression closure: `Rc<Fn(&RecordBatch) -> Result<ArrayRef>>`. -/
def CompiledExpr := RecordBatch → Outcome ArrayRef

/-- `AggregateType` of the source. -/
inductive AggregateType
  | min
  | max
  | sum
  | count
  | avg
deriving DecidableEq

/-- `RuntimeExpr` of the source: either a compiled scalar closure with its
static result type, or an aggregate-function descriptor. -/
inductive RuntimeExpr
  | compiled (f : CompiledExpr) (t : DataType)
  | aggregateFunction (f : AggregateType) (args : List CompiledExpr) (t : DataType)

/-- `RuntimeExpr::get_func`.  The source panics on the aggregate variant
(`_ => panic!()`); the panic is modelled by `none`. -/
def RuntimeExpr.getFunc : RuntimeExpr → Option CompiledExpr
  | .compiled f _ => some f
  | _ => none

/-- `RuntimeExpr::get_type`. -/
def RuntimeExpr.getType : RuntimeExpr → DataType
  | .compiled _ t => t
  | .aggregateFunction _ _ t => t

/-- Literal payload (`ScalarValue` of the logical plan).
Modelled from the spec: the logical-plan module is not under `src/`; the
payload is never inspected by this core (literals compile to
NotImplemented), so a minimal value type suffices. -/
inductive ScalarValue
  | int64 (v : Int)
  | utf8 (s : String)
deriving DecidableEq

/-- Binary operators of the logical plan.
Modelled from the spec: the `Operator` enumeration lives in the
logical-plan module, which is not under `src/`; §3 of the spec lists the
comparison family {Eq, NotEq, Lt, LtEq, Gt, GtEq}, the arithmetic family
{Plus, Minus, Multiply, Divide}, and the recognized-but-unimplemented
logical operators {And, Or}. -/
inductive Operator
  | eq
  | notEq
  | lt
  | ltEq
  | gt
  | gtEq
  | plus
  | minus
  | multiply
  | divide
  | and
  | or
deriving DecidableEq

/-- Logical expression tree (`Expr` of the logical plan).
Modelled from the spec: the logical-plan module is not under `src/`; §3 of
the spec lists the variants consumed by this core: `Literal(value)`,
`Column(index)`, `Cast{expr, target_type}`, `BinaryExpr{left, op, right}`,
`AggregateFunction{name, args, return_type}`. -/
inductive Expr
  | literal (v : ScalarValue)
  | column (index : Nat)
  | cast (expr : Expr) (dataType : DataType)
  | binaryExpr (left : Expr) (op : Operator) (right : Expr)
  | aggregateFunction (name : String) (args : List Expr) (returnType : DataType)

/-- Execution context, threaded through compilation but unused by every
implemented path (spec §6, §9).
Modelled from the spec: the context module is not under `src/`. -/
structure ExecutionContext where
  mk' ::

/-- Arithmetic kernel selector: which of `array_ops::{add, subtract,
multiply, divide}` a `math_ops!` instantiation uses. -/
inductive MathOp
  | add
  | subtract
  | multiply
  | divide
deriving DecidableEq

/-- Comparison kernel selector: which of `array_ops::{eq, neq, lt, lt_eq,
gt, gt_eq}` a `comparison_ops!` instantiation uses. -/
inductive CompOp
  | eq
  | neq
  | lt
  | ltEq
  | gt
  | gtEq
deriving DecidableEq

/-- Two's-complement wrap of an integer into signed width `w`. -/
def wrapSigned (w : Nat) (v : Int) : Int :=
  ((v + 2 ^ (w - 1)) % 2 ^ w) - 2 ^ (w - 1)

/-- Wrap of an integer into unsigned width `w`. -/
def wrapUnsigned (w : Nat) (v : Int) : Int :=
  v % 2 ^ w

/-- Normalisation of a raw kernel result into the value range of the
element type: integer widths wrap; the float payloads are modelled
exactly. -/
def normValue : DataType → Int → Int
  | .int8, v => wrapSigned 8 v
  | .int16, v => wrapSigned 16 v
  | .int32, v => wrapSigned 32 v
  | .int64, v => wrapSigned 64 v
  | .uint8, v => wrapUnsigned 8 v
  | .uint16, v => wrapUnsigned 16 v
  | .uint32, v => wrapUnsigned 32 v
  | .uint64, v => wrapUnsigned 64 v
  | .float32, v => v
  | .float64, v => v
  | .boolean, v => v

/-- Native scalar arithmetic, as applied per element by the arrow kernels.
Division is the native truncating integer division. -/
def mathScalar : MathOp → Int → Int → Int
  | .add, a, b => a + b
  | .subtract, a, b => a - b
  | .multiply, a, b => a * b
  | .divide, a, b => Int.tdiv a b

/-- Native scalar comparison, as applied per element by the arrow kernels. -/
def compareScalar : CompOp → Int → Int → Bool
  | .eq, a, b => decide (a = b)
  | .neq, a, b => decide (a ≠ b)
  | .lt, a, b => decide (a < b)
  | .ltEq, a, b => decide (a ≤ b)
  | .gt, a, b => decide (b < a)
  | .gtEq, a, b => decide (b ≤ a)

/-- Modelled from the spec: the arithmetic kernels of the external arrow
crate (`array_ops::{add, subtract, multiply, divide}`), "standard
elementwise vectorized numeric operations" (§4.2).  A kernel requires
equal-length inputs and applies the native scalar operation pointwise,
producing an array of the same element type. -/
def arrowMathKernel (dt : DataType) (op : MathOp) (l r : List Int) :
    Outcome ArrayRef :=
  if l.length = r.length then
    .ok (.numeric dt (List.zipWith (fun a b => normValue dt (mathScalar op a b)) l r))
  else
    .error (.general "Cannot perform math operation on arrays of different length")

/-- Modelled from the spec: the comparison kernels of the external arrow
crate (`array_ops::{eq, neq, lt, lt_eq, gt, gt_eq}`).  A kernel requires
equal-length inputs and applies the native scalar comparison pointwise,
producing a boolean array. -/
def arrowComparisonKernel (op : CompOp) (l r : List Int) :
    Outcome ArrayRef :=
  if l.length = r.length then
    .ok (.boolean (List.zipWith (fun a b => compareScalar op a b) l r))
  else
    .error (.general "Cannot perform comparison on arrays of different length")

/-- The `binary_op!` macro for an arithmetic kernel: downcast both arrays
to the matched concrete array type and run the kernel. -/
def binaryMathOp (dt : DataType) (op : MathOp) (l r : ArrayRef) :
    Outcome ArrayRef :=
  arrowMathKernel dt op l.intValues r.intValues

/-- The `binary_op!` macro for a comparison kernel. -/
def binaryComparisonOp (op : CompOp) (l r : ArrayRef) : Outcome ArrayRef :=
  arrowComparisonKernel op l.intValues r.intValues

/-- The type-pair dispatch of the `math_ops!` macro: only identical numeric
element types select a kernel; everything else is NotImplemented. -/
def mathDispatch (leftValues rightValues : ArrayRef) (op : MathOp) :
    Outcome ArrayRef :=
  match leftValues.dataType, rightValues.dataType with
  | .int8, .int8 => binaryMathOp .int8 op leftValues rightValues
  | .int16, .int16 => binaryMathOp .int16 op leftValues rightValues
  | .int32, .int32 => binaryMathOp .int32 op leftValues rightValues
  | .int64, .int64 => binaryMathOp .int64 op leftValues rightValues
  | .uint8, .uint8 => binaryMathOp .uint8 op leftValues rightValues
  | .uint16, .uint16 => binaryMathOp .uint16 op leftValues rightValues
  | .uint32, .uint32 => binaryMathOp .uint32 op leftValues rightValues
  | .uint64, .uint64 => binaryMathOp .uint64 op leftValues rightValues
  | .float32, .float32 => binaryMathOp .float32 op leftValues rightValues
  | .float64, .float64 => binaryMathOp .float64 op leftValues rightValues
  | _, _ => .error .notImplemented

/-- The type-pair dispatch of the `comparison_ops!` macro. -/
def comparisonDispatch (leftValues rightValues : ArrayRef) (op : CompOp) :
    Outcome ArrayRef :=
  match leftValues.dataType, rightValues.dataType with
  | .int8, .int8 => binaryComparisonOp op leftValues rightValues
  | .int16, .int16 => binaryComparisonOp op leftValues rightValues
  | .int32, .int32 => binaryComparisonOp op leftValues rightValues
  | .int64, .int64 => binaryComparisonOp op leftValues rightValues
  | .uint8, .uint8 => binaryComparisonOp op leftValues rightValues
  | .uint16, .uint16 => binaryComparisonOp op leftValues rightValues
  | .uint32, .uint32 => binaryComparisonOp op leftValues rightValues
  | .uint64, .uint64 => binaryComparisonOp op leftValues rightValues
  | .float32, .float32 => binaryComparisonOp op leftValues rightValues
  | .float64, .float64 => binaryComparisonOp op leftValues rightValues
  | _, _ => .error .notImplemented

/-- Body of the `math_ops!` macro: evaluate the left operand, then the
right operand, then dispatch on the pair of runtime data types. -/
def mathOps (l r : RuntimeExpr) (batch : RecordBatch) (op : MathOp) :
    Outcome ArrayRef :=
  match l.getFunc with
  | none => .panic
  | some lf =>
    match lf batch with
    | .error e => .error e
    | .panic => .panic
    | .ok leftValues =>
      match r.getFunc with
      | none => .panic
      | some rf =>
        match rf batch with
        | .error e => .error e
        | .panic => .panic
        | .ok rightValues => mathDispatch leftValues rightValues op

/-- Body of the `comparison_ops!` macro. -/
def comparisonOps (l r : RuntimeExpr) (batch : RecordBatch) (op : CompOp) :
    Outcome ArrayRef :=
  match l.getFunc with
  | none => .panic
  | some lf =>
    match lf batch with
    | .error e => .error e
    | .panic => .panic
    | .ok leftValues =>
      match r.getFunc with
      | none => .panic
      | some rf =>
        match rf batch with
        | .error e => .error e
        | .panic => .panic
        | .ok rightValues => comparisonDispatch leftValues rightValues op

/-- The closure built for `Expr::Column(index)`: return the batch's column
at `index` unchanged (the source clones the reference-counted handle, not
the array).  An out-of-range index panics (`batch.column(index)` indexes a
`Vec`). -/
def columnEvaluator (index : Nat) : CompiledExpr := fun batch =>
  match batch.columns[index]? with
  | some col => .ok col
  | none => .panic

/-- The closure built for an arithmetic `BinaryExpr`. -/
def mathEvaluator (l r : RuntimeExpr) (op : MathOp) : CompiledExpr :=
  fun batch => mathOps l r batch op

/-- The closure built for a comparison `BinaryExpr`. -/
def comparisonEvaluator (l r : RuntimeExpr) (op : CompOp) : CompiledExpr :=
  fun batch => comparisonOps l r batch op

/-- The `BinaryExpr` arm of `compile_scalar_expr`, after both operands have
been compiled: select the operator.  Comparison operators produce a
Boolean-typed compiled expression; arithmetic operators take the left
operand's static type; everything else (And, Or) is NotImplemented. -/
def compileBinary (le re : Outcome RuntimeExpr) (op : Operator) :
    Outcome RuntimeExpr :=
  match le with
  | .error e => .error e
  | .panic => .panic
  | .ok leftExpr =>
    match re with
    | .error e => .error e
    | .panic => .panic
    | .ok rightExpr =>
      let opType := leftExpr.getType
      match op with
      | .eq => .ok (.compiled (comparisonEvaluator leftExpr rightExpr .eq) .boolean)
      | .notEq => .ok (.compiled (comparisonEvaluator leftExpr rightExpr .neq) .boolean)
      | .lt => .ok (.compiled (comparisonEvaluator leftExpr rightExpr .lt) .boolean)
      | .ltEq => .ok (.compiled (comparisonEvaluator leftExpr rightExpr .ltEq) .boolean)
      | .gt => .ok (.compiled (comparisonEvaluator leftExpr rightExpr .gt) .boolean)
      | .gtEq => .ok (.compiled (comparisonEvaluator leftExpr rightExpr .gtEq) .boolean)
      | .plus => .ok (.compiled (mathEvaluator leftExpr rightExpr .add) opType)
      | .minus => .ok (.compiled (mathEvaluator leftExpr rightExpr .subtract) opType)
      | .multiply => .ok (.compiled (mathEvaluator leftExpr rightExpr .multiply) opType)
      | .divide => .ok (.compiled (mathEvaluator leftExpr rightExpr .divide) opType)
      | _ => .error .notImplemented

/-- `compile_scalar_expr` of the source: recursive lowering of non-aggregate
nodes.  `Literal` and both recognized `Cast` shapes are NotImplemented; an
unrecognized `Cast` body is a General error; `Column(i)` reads the schema
(an out-of-range index panics in `schema.field(i)`); the final catch-all
(which covers `AggregateFunction` nodes) is NotImplemented. -/
def compileScalarExpr (ctx : ExecutionContext) (expr : Expr)
    (inputSchema : Schema) : Outcome RuntimeExpr :=
  match expr with
  | .literal _ => .error .notImplemented
  | .column index =>
    match inputSchema[index]? with
    | none => .panic
    | some field => .ok (.compiled (columnEvaluator index) field.dataType)
  | .cast e _ =>
    match e with
    | .column _ => .error .notImplemented
    | .literal _ => .error .notImplemented
    | _ => .error (.general "CAST not implemented for expression")
  | .binaryExpr left op right =>
    compileBinary (compileScalarExpr ctx left inputSchema)
      (compileScalarExpr ctx right inputSchema) op
  | .aggregateFunction _ _ _ => .error .notImplemented

/-- Rust `str::to_lowercase` (`name.to_lowercase()` in the source),
modelled over the string's character list. -/
def toLowercase (s : String) : String :=
  ⟨s.data.map Char.toLower⟩

/-- The case-insensitive aggregate-name lookup of `compile_expr`
(`match name.to_lowercase().as_ref()`); `none` models the
`unimplemented!` panic on an unrecognized name.  Note `"avg"` is absent. -/
def aggregateTypeOfName (name : String) : Option AggregateType :=
  if name = "min" then some .min
  else if name = "max" then some .max
  else if name = "count" then some .count
  else if name = "sum" then some .sum
  else none

/-- `collect::<Result<Vec<_>>>()` over the compiled arguments: short-circuit
at the first error (later arguments are not compiled, so a later panic
cannot fire). -/
def collectOutcomes {α : Type} : List (Outcome α) → Outcome (List α)
  | [] => .ok []
  | x :: xs =>
    match x with
    | .ok a =>
      match collectOutcomes xs with
      | .ok as' => .ok (a :: as')
      | .error e => .error e
      | .panic => .panic
    | .error e => .error e
    | .panic => .panic

/-- `compiled_args?.iter().map(|e| e.get_func().clone()).collect()`:
extract each compiled argument's evaluator; `none` models the panic of
`get_func` on an aggregate variant. -/
def mapGetFunc : List RuntimeExpr → Option (List CompiledExpr)
  | [] => some []
  | e :: es =>
    match e.getFunc with
    | some f => (mapGetFunc es).map (fun fs => f :: fs)
    | none => none

/-- `compile_expr` of the source: the top-level entry point.  An
`AggregateFunction` node first hits `assert_eq!(1, args.len())` (panic on
any other arity), then compiles its arguments through the scalar path
(eagerly, short-circuiting at the first error), then resolves the
lowercased name (`unimplemented!` panic when unrecognized — including
"avg"), then propagates any argument-compilation error, and finally builds
the aggregate descriptor carrying the declared return type verbatim.
Every other node delegates to `compile_scalar_expr`. -/
def compileExpr (ctx : ExecutionContext) (expr : Expr)
    (inputSchema : Schema) : Outcome RuntimeExpr :=
  match expr with
  | .aggregateFunction name args returnType =>
    if args.length = 1 then
      match collectOutcomes (args.map (fun e => compileScalarExpr ctx e inputSchema)) with
      | .panic => .panic
      | compiledArgs =>
        match aggregateTypeOfName (toLowercase name) with
        | none => .panic
        | some func =>
          match compiledArgs with
          | .ok es =>
            match mapGetFunc es with
            | some fs => .ok (.aggregateFunction func fs returnType)
            | none => .panic
          | .error e => .error e
          | .panic => .panic
    else .panic
  | other => compileScalarExpr ctx other inputSchema

/-- Evaluate the scalar closure of a compilation outcome on a batch
(compose compilation, `get_func`, and invocation). -/
def evalScalar (res : Outcome RuntimeExpr) (batch : RecordBatch) :
    Outcome ArrayRef :=
  match res with
  | .ok e =>
    match e.getFunc with
    | some f => f batch
    | none => .panic
  | .error e => .error e
  | .panic => .panic

/-- Whether a compilation outcome is a returned General error. -/
def isGeneralError : Outcome RuntimeExpr → Bool
  | .error (.general _) => true
  | _ => false

/-- The static result type of a successful compilation outcome. -/
def resultTypeOf : Outcome RuntimeExpr → Option DataType
  | .ok e => some e.getType
  | _ => none

/-- The comparison family of operators. -/
def comparisonOperators : List Operator :=
  [.eq, .notEq, .lt, .ltEq, .gt, .gtEq]

/-- The arithmetic family of operators. -/
def mathOperators : List Operator :=
  [.plus, .minus, .multiply, .divide]

/-- All binary operators with a compiled implementation. -/
def supportedOperators : List Operator :=
  comparisonOperators ++ mathOperators

/-- The `Operator` value a given arithmetic kernel is compiled for. -/
def mathOperatorOf : MathOp → Operator
  | .add => .plus
  | .subtract => .minus
  | .multiply => .multiply
  | .divide => .divide

/-- The `Operator` value a given comparison kernel is compiled for. -/
def compOperatorOf : CompOp → Operator
  | .eq => .eq
  | .neq => .notEq
  | .lt => .lt
  | .ltEq => .ltEq
  | .gt => .gt
  | .gtEq => .gtEq

/-- A default execution context (the context is pass-through and unused). -/
def ctx0 : ExecutionContext := ⟨⟩

/-- The two-column Int32 schema of the spec's end-to-end examples. -/
def schema2 : Schema :=
  [⟨"col0", .int32⟩, ⟨"col1", .int32⟩]

/-- The schema `[a: Int32, b: Int64]` used to exercise the mixed-type path. -/
def schemaMixed : Schema :=
  [⟨"a", .int32⟩, ⟨"b", .int64⟩]

/-- The batch of the spec's arithmetic end-to-end example. -/
def batchAdd : RecordBatch :=
  ⟨[.numeric .int32 [1, 2, 3], .numeric .int32 [10, 20, 30]]⟩

/-- The batch of the spec's comparison end-to-end example. -/
def batchGt : RecordBatch :=
  ⟨[.numeric .int32 [5, 25, 3], .numeric .int32 [10, 20, 30]]⟩

/-- A batch whose two columns have different element types. -/
def batchMixed : RecordBatch :=
  ⟨[.numeric .int32 [1, 2], .numeric .int64 [3, 4]]⟩

lemma compileScalarExpr_binaryExpr (ctx : ExecutionContext) (l : Expr)
    (op : Operator) (r : Expr) (schema : Schema) :
    compileScalarExpr ctx (.binaryExpr l op r) schema
      = compileBinary (compileScalarExpr ctx l schema)
          (compileScalarExpr ctx r schema) op := rfl

lemma mathOps_compiled {lf rf : CompiledExpr} {lt rt : DataType}
    {batch : RecordBatch} {la lb : ArrayRef} (op : MathOp)
    (ha : lf batch = .ok la) (hb : rf batch = .ok lb) :
    mathOps (.compiled lf lt) (.compiled rf rt) batch op
      = mathDispatch la lb op := by
  simp only [mathOps, RuntimeExpr.getFunc, ha, hb]

lemma comparisonOps_compiled {lf rf : CompiledExpr} {lt rt : DataType}
    {batch : RecordBatch} {la lb : ArrayRef} (op : CompOp)
    (ha : lf batch = .ok la) (hb : rf batch = .ok lb) :
    comparisonOps (.compiled lf lt) (.compiled rf rt) batch op
      = comparisonDispatch la lb op := by
  simp only [comparisonOps, RuntimeExpr.getFunc, ha, hb]

lemma mathDispatch_same {dt : DataType} (hdt : dt ∈ numericTypes)
    (a b : List Int) (op : MathOp) :
    mathDispatch (.numeric dt a) (.numeric dt b) op
      = arrowMathKernel dt op a b := by
  fin_cases hdt <;> rfl

lemma comparisonDispatch_same {dt : DataType} (hdt : dt ∈ numericTypes)
    (a b : List Int) (op : CompOp) :
    comparisonDispatch (.numeric dt a) (.numeric dt b) op
      = arrowComparisonKernel op a b := by
  fin_cases hdt <;> rfl

lemma mathDispatch_ne (la lb : ArrayRef) (op : MathOp)
    (hne : la.dataType ≠ lb.dataType) :
    mathDispatch la lb op = .error .notImplemented := by
  rcases la with ⟨dt1, a⟩ | a <;> rcases lb with ⟨dt2, b⟩ | b
  · cases dt1 <;> cases dt2 <;> first | rfl | exact absurd rfl hne
  · cases dt1 <;> rfl
  · cases dt2 <;> rfl
  · exact absurd rfl hne

lemma comparisonDispatch_ne (la lb : ArrayRef) (op : CompOp)
    (hne : la.dataType ≠ lb.dataType) :
    comparisonDispatch la lb op = .error .notImplemented := by
  rcases la with ⟨dt1, a⟩ | a <;> rcases lb with ⟨dt2, b⟩ | b
  · cases dt1 <;> cases dt2 <;> first | rfl | exact absurd rfl hne
  · cases dt1 <;> rfl
  · cases dt2 <;> rfl
  · exact absurd rfl hne

lemma mathEvaluator_ne {lf rf : CompiledExpr} {lt rt : DataType}
    {batch : RecordBatch} {la lb : ArrayRef} (op : MathOp)
    (ha : lf batch = .ok la) (hb : rf batch = .ok lb)
    (hne : la.dataType ≠ lb.dataType) :
    mathEvaluator (.compiled lf lt) (.compiled rf rt) op batch
      = .error .notImplemented := by
  show mathOps _ _ _ _ = _
  rw [mathOps_compiled op ha hb]
  exact mathDispatch_ne la lb op hne

lemma comparisonEvaluator_ne {lf rf : CompiledExpr} {lt rt : DataType}
    {batch : RecordBatch} {la lb : ArrayRef} (op : CompOp)
    (ha : lf batch = .ok la) (hb : rf batch = .ok lb)
    (hne : la.dataType ≠ lb.dataType) :
    comparisonEvaluator (.compiled lf lt) (.compiled rf rt) op batch
      = .error .notImplemented := by
  show comparisonOps _ _ _ _ = _
  rw [comparisonOps_compiled op ha hb]
  exact comparisonDispatch_ne la lb op hne

/-- C5: For every in-range column index `i`, compiling `Column(i)` against a
schema succeeds, the compiled expression's static result type equals the
data type of `schema.field(i)`, and invoking its evaluator on any batch
holding a column at position `i` returns that column itself. -/
theorem column_compile_and_eval (ctx : ExecutionContext) (schema : Schema)
    (i : Nat) (field : SchemaField) (h : schema[i]? = some field) :
    compileScalarExpr ctx (.column i) schema
        = .ok (.compiled (columnEvaluator i) field.dataType)
      ∧ ∀ (batch : RecordBatch) (col : ArrayRef),
          batch.columns[i]? = some col → columnEvaluator i batch = .ok col := by
  constructor
  · simp only [compileScalarExpr, h]
  · intro batch col hc
    simp only [columnEvaluator, hc]

theorem column_compile_and_eval_witness :
    (schema2[1]? = some ⟨"col1", .int32⟩)
      ∧ compileScalarExpr ctx0 (.column 1) schema2
          = .ok (.compiled (columnEvaluator 1) .int32)
      ∧ columnEvaluator 1 batchAdd = .ok (.numeric .int32 [10, 20, 30]) := by
  obtain ⟨h1, h2⟩ := column_compile_and_eval ctx0 schema2 1 ⟨"col1", .int32⟩ rfl
  exact ⟨rfl, h1, h2 batchAdd _ rfl⟩

/-- C7 counterexample: compiling an `AggregateFunction` with zero arguments
does not return a General error (as the claim states); it aborts via
`assert_eq!(1, args.len())`, modelled by `Outcome.panic`. -/
theorem aggregate_arity_counterexample :
    isGeneralError (compileExpr ctx0
        (.aggregateFunction "sum" [] .int32) schema2) = false
      ∧ compileExpr ctx0 (.aggregateFunction "sum" [] .int32) schema2
          = .panic :=
  ⟨rfl, rfl⟩

/-- C7 (amended): For every `AggregateFunction` expression with an argument
count other than one, compilation fails fast with an assertion panic
(process abort), not a returned error value. -/
theorem aggregate_arity_panics (ctx : ExecutionContext) (schema : Schema)
    (name : String) (args : List Expr) (rt : DataType)
    (h : args.length ≠ 1) :
    compileExpr ctx (.aggregateFunction name args rt) schema = .panic := by
  simp only [compileExpr, if_neg h]

theorem aggregate_arity_panics_witness :
    (([Expr.column 0, Expr.column 1].length ≠ 1)
      ∧ compileExpr ctx0
          (.aggregateFunction "count" [.column 0, .column 1] .int64) schema2
          = .panic) :=
  ⟨by decide,
   aggregate_arity_panics ctx0 schema2 "count" [.column 0, .column 1] .int64
     (by decide)⟩

/-- C8: For every `BinaryExpr` whose operator is And or Or and whose
operands both compile successfully as scalar expressions, compilation
itself fails with a NotImplemented error; no compiled evaluator is
produced. -/
theorem binary_and_or_not_implemented (ctx : ExecutionContext)
    (schema : Schema) (l r : Expr) (lf rf : CompiledExpr)
    (lt rt : DataType) (op : Operator)
    (hl : compileScalarExpr ctx l schema = .ok (.compiled lf lt))
    (hr : compileScalarExpr ctx r schema = .ok (.compiled rf rt))
    (hop : op = .and ∨ op = .or) :
    compileScalarExpr ctx (.binaryExpr l op r) schema
      = .error .notImplemented := by
  have hbin : compileScalarExpr ctx (.binaryExpr l op r) schema
      = compileBinary (.ok (.compiled lf lt)) (.ok (.compiled rf rt)) op := by
    rw [compileScalarExpr_binaryExpr, hl, hr]
  rcases hop with rfl | rfl <;> exact hbin.trans rfl

theorem binary_and_or_not_implemented_witness :
    compileScalarExpr ctx0 (.binaryExpr (.column 0) .and (.column 1)) schema2
      = .error .notImplemented :=
  binary_and_or_not_implemented ctx0 schema2 (.column 0) (.column 1)
    (columnEvaluator 0) (columnEvaluator 1) .int32 .int32 .and rfl rfl
    (Or.inl rfl)

/-- C9: Retrieving the scalar evaluator from an `Aggregate` compiled
expression is a fail-fast contract violation (the source's `panic!()`,
modelled by `none`); retrieving it from a `Scalar` compiled expression
returns its evaluator. -/
theorem get_func_contract (k : AggregateType) (args : List CompiledExpr)
    (t : DataType) (f : CompiledExpr) (u : DataType) :
    RuntimeExpr.getFunc (.aggregateFunction k args t) = none
      ∧ RuntimeExpr.getFunc (.compiled f u) = some f :=
  ⟨rfl, rfl⟩

/-- C10: For every `AggregateFunction` expression with exactly one argument
and a recognized name, if that argument is itself an `AggregateFunction`,
compilation fails with a NotImplemented error (the scalar path's catch-all
rejects aggregate nodes); no aggregate descriptor is produced. -/
theorem nested_aggregate_not_implemented (ctx : ExecutionContext)
    (schema : Schema) (name : String) (rt : DataType) (name2 : String)
    (args2 : List Expr) (rt2 : DataType) (k : AggregateType)
    (hk : aggregateTypeOfName (toLowercase name) = some k) :
    compileExpr ctx
        (.aggregateFunction name [.aggregateFunction name2 args2 rt2] rt)
        schema
      = .error .notImplemented := by
  simp only [compileExpr, List.length_cons, List.length_nil, List.map,
    compileScalarExpr, collectOutcomes, hk, if_pos]

theorem nested_aggregate_not_implemented_witness :
    compileExpr ctx0
        (.aggregateFunction "max" [.aggregateFunction "min" [.column 0] .int32]
          .int32) schema2
      = .error .notImplemented :=
  nested_aggregate_not_implemented ctx0 schema2 "max" .int32 "min"
    [.column 0] .int32 .max (by decide)

/-- C1: For every numeric element type and every arithmetic operator, the
compiled evaluator of a `BinaryExpr` whose operands evaluate to two
columns of that type with equal length produces a column of the same
length whose element at each index is the native arithmetic operation
applied to the operands' elements at that index. -/
theorem math_binary_pointwise (ctx : ExecutionContext) (schema : Schema)
    (l r : Expr) (lf rf : CompiledExpr) (lt rt dt : DataType) (op : MathOp)
    (batch : RecordBatch) (a b : List Int)
    (hdt : dt ∈ numericTypes)
    (hl : compileScalarExpr ctx l schema = .ok (.compiled lf lt))
    (hr : compileScalarExpr ctx r schema = .ok (.compiled rf rt))
    (ha : lf batch = .ok (.numeric dt a))
    (hb : rf batch = .ok (.numeric dt b))
    (hlen : a.length = b.length) :
    compileScalarExpr ctx (.binaryExpr l (mathOperatorOf op) r) schema
        = .ok (.compiled (mathEvaluator (.compiled lf lt) (.compiled rf rt) op) lt)
      ∧ mathEvaluator (.compiled lf lt) (.compiled rf rt) op batch
          = .ok (.numeric dt
              (List.zipWith (fun x y => normValue dt (mathScalar op x y)) a b))
      ∧ (List.zipWith (fun x y => normValue dt (mathScalar op x y)) a b).length
          = a.length := by
  have hbin : compileScalarExpr ctx (.binaryExpr l (mathOperatorOf op) r) schema
      = compileBinary (.ok (.compiled lf lt)) (.ok (.compiled rf rt))
          (mathOperatorOf op) := by
    rw [compileScalarExpr_binaryExpr, hl, hr]
  refine ⟨?_, ?_, ?_⟩
  · cases op <;> exact hbin.trans rfl
  · show mathOps _ _ _ _ = _
    rw [mathOps_compiled op ha hb, mathDispatch_same hdt a b op]
    simp only [arrowMathKernel, if_pos hlen]
  · rw [List.length_zipWith, hlen, Nat.min_self]

theorem math_binary_pointwise_witness :
    evalScalar (compileScalarExpr ctx0
        (.binaryExpr (.column 0) .plus (.column 1)) schema2) batchAdd
      = .ok (.numeric .int32 [11, 22, 33]) := by
  obtain ⟨h1, h2, -⟩ := math_binary_pointwise ctx0 schema2 (.column 0)
      (.column 1) (columnEvaluator 0) (columnEvaluator 1) .int32 .int32 .int32
      .add batchAdd [1, 2, 3] [10, 20, 30] (by decide) rfl rfl rfl rfl
      (by decide)
  show evalScalar (compileScalarExpr ctx0
      (.binaryExpr (.column 0) (mathOperatorOf .add) (.column 1)) schema2)
      batchAdd = _
  rw [h1]
  show mathEvaluator _ _ _ _ = _
  rw [h2]
  decide

/-- C2: For every numeric element type and every comparison operator, the
compiled evaluator of a `BinaryExpr` whose operands evaluate to two
columns of that type with equal length produces a Boolean column of the
same length that is pointwise the native comparison of the operands'
elements. -/
theorem comparison_binary_pointwise (ctx : ExecutionContext)
    (schema : Schema) (l r : Expr) (lf rf : CompiledExpr)
    (lt rt dt : DataType) (op : CompOp) (batch : RecordBatch)
    (a b : List Int)
    (hdt : dt ∈ numericTypes)
    (hl : compileScalarExpr ctx l schema = .ok (.compiled lf lt))
    (hr : compileScalarExpr ctx r schema = .ok (.compiled rf rt))
    (ha : lf batch = .ok (.numeric dt a))
    (hb : rf batch = .ok (.numeric dt b))
    (hlen : a.length = b.length) :
    compileScalarExpr ctx (.binaryExpr l (compOperatorOf op) r) schema
        = .ok (.compiled
            (comparisonEvaluator (.compiled lf lt) (.compiled rf rt) op)
            .boolean)
      ∧ comparisonEvaluator (.compiled lf lt) (.compiled rf rt) op batch
          = .ok (.boolean (List.zipWith (fun x y => compareScalar op x y) a b))
      ∧ (List.zipWith (fun x y => compareScalar op x y) a b).length
          = a.length := by
  have hbin : compileScalarExpr ctx (.binaryExpr l (compOperatorOf op) r) schema
      = compileBinary (.ok (.compiled lf lt)) (.ok (.compiled rf rt))
          (compOperatorOf op) := by
    rw [compileScalarExpr_binaryExpr, hl, hr]
  refine ⟨?_, ?_, ?_⟩
  · cases op <;> exact hbin.trans rfl
  · show comparisonOps _ _ _ _ = _
    rw [comparisonOps_compiled op ha hb, comparisonDispatch_same hdt a b op]
    simp only [arrowComparisonKernel, if_pos hlen]
  · rw [List.length_zipWith, hlen, Nat.min_self]

theorem comparison_binary_pointwise_witness :
    evalScalar (compileScalarExpr ctx0
        (.binaryExpr (.column 0) .gt (.column 1)) schema2) batchGt
      = .ok (.boolean [false, true, false]) := by
  obtain ⟨h1, h2, -⟩ := comparison_binary_pointwise ctx0 schema2 (.column 0)
      (.column 1) (columnEvaluator 0) (columnEvaluator 1) .int32 .int32 .int32
      .gt batchGt [5, 25, 3] [10, 20, 30] (by decide) rfl rfl rfl rfl
      (by decide)
  show evalScalar (compileScalarExpr ctx0
      (.binaryExpr (.column 0) (compOperatorOf .gt) (.column 1)) schema2)
      batchGt = _
  rw [h1]
  show comparisonEvaluator _ _ _ _ = _
  rw [h2]
  decide

/-- C3: For every `BinaryExpr` with a supported operator whose operands
compile successfully but evaluate to columns of two different element
types on a given batch, compilation succeeds and the compiled evaluator
fails on that batch with a NotImplemented error (no implicit promotion). -/
theorem binary_type_mismatch (ctx : ExecutionContext) (schema : Schema)
    (l r : Expr) (lf rf : CompiledExpr) (lt rt : DataType) (op : Operator)
    (batch : RecordBatch) (la lb : ArrayRef)
    (hop : op ∈ supportedOperators)
    (hl : compileScalarExpr ctx l schema = .ok (.compiled lf lt))
    (hr : compileScalarExpr ctx r schema = .ok (.compiled rf rt))
    (ha : lf batch = .ok la)
    (hb : rf batch = .ok lb)
    (hne : la.dataType ≠ lb.dataType) :
    ∃ f t, compileScalarExpr ctx (.binaryExpr l op r) schema
        = .ok (.compiled f t)
      ∧ f batch = .error .notImplemented := by
  have hbin : compileScalarExpr ctx (.binaryExpr l op r) schema
      = compileBinary (.ok (.compiled lf lt)) (.ok (.compiled rf rt)) op := by
    rw [compileScalarExpr_binaryExpr, hl, hr]
  simp only [supportedOperators, comparisonOperators, mathOperators,
    List.cons_append, List.nil_append] at hop
  fin_cases hop <;>
    first
      | exact ⟨_, _, hbin.trans rfl, comparisonEvaluator_ne _ ha hb hne⟩
      | exact ⟨_, _, hbin.trans rfl, mathEvaluator_ne _ ha hb hne⟩

theorem binary_type_mismatch_witness :
    evalScalar (compileScalarExpr ctx0
        (.binaryExpr (.column 0) .plus (.column 1)) schemaMixed) batchMixed
      = .error .notImplemented := by
  obtain ⟨f, t, hc, hf⟩ := binary_type_mismatch ctx0 schemaMixed (.column 0)
      (.column 1) (columnEvaluator 0) (columnEvaluator 1) .int32 .int64 .plus
      batchMixed (.numeric .int32 [1, 2]) (.numeric .int64 [3, 4])
      (by decide) rfl rfl rfl rfl (by decide)
  rw [hc]
  show f batchMixed = _
  exact hf

/-- C4: For every `BinaryExpr` whose operands both compile successfully,
the compiled expression's static result type is Boolean for a comparison
operator and is exactly the left operand's compiled result type for an
arithmetic operator, with no verification against the right operand's
compiled result type (which is unconstrained here). -/
theorem binary_static_result_type (ctx : ExecutionContext) (schema : Schema)
    (l r : Expr) (lf rf : CompiledExpr) (lt rt : DataType) (op : Operator)
    (hl : compileScalarExpr ctx l schema = .ok (.compiled lf lt))
    (hr : compileScalarExpr ctx r schema = .ok (.compiled rf rt)) :
    (op ∈ comparisonOperators →
      ∃ f, compileScalarExpr ctx (.binaryExpr l op r) schema
        = .ok (.compiled f .boolean))
    ∧ (op ∈ mathOperators →
      ∃ f, compileScalarExpr ctx (.binaryExpr l op r) schema
        = .ok (.compiled f lt)) := by
  have hbin : compileScalarExpr ctx (.binaryExpr l op r) schema
      = compileBinary (.ok (.compiled lf lt)) (.ok (.compiled rf rt)) op := by
    rw [compileScalarExpr_binaryExpr, hl, hr]
  constructor
  · intro hop
    simp only [comparisonOperators] at hop
    fin_cases hop <;> exact ⟨_, hbin.trans rfl⟩
  · intro hop
    simp only [mathOperators] at hop
    fin_cases hop <;> exact ⟨_, hbin.trans rfl⟩

theorem binary_static_result_type_witness :
    resultTypeOf (compileScalarExpr ctx0
        (.binaryExpr (.column 0) .gt (.column 1)) schema2) = some .boolean
      ∧ resultTypeOf (compileScalarExpr ctx0
          (.binaryExpr (.column 0) .plus (.column 1)) schema2)
          = some .int32 := by
  constructor
  · obtain ⟨hc, -⟩ := binary_static_result_type ctx0 schema2 (.column 0)
        (.column 1) (columnEvaluator 0) (columnEvaluator 1) .int32 .int32 .gt
        rfl rfl
    obtain ⟨f, hf⟩ := hc (by decide)
    rw [hf]; rfl
  · obtain ⟨-, hm⟩ := binary_static_result_type ctx0 schema2 (.column 0)
        (.column 1) (columnEvaluator 0) (columnEvaluator 1) .int32 .int32
        .plus rfl rfl
    obtain ⟨f, hf⟩ := hm (by decide)
    rw [hf]; rfl

/-- C6: For every `AggregateFunction` expression with exactly one argument
that compiles via the scalar path and a name whose lowercase form the
lookup recognizes, compilation succeeds with an aggregate descriptor of
the corresponding kind, exactly the one compiled argument evaluator, and
the declared return type verbatim; the lookup maps min/max/count/sum to
the matching kinds, and the name "avg" (in any letter case) does not
resolve — compilation aborts on it. -/
theorem aggregate_compile (ctx : ExecutionContext) (schema : Schema)
    (name : String) (arg : Expr) (rt : DataType) (k : AggregateType)
    (f : CompiledExpr) (t : DataType)
    (hk : aggregateTypeOfName (toLowercase name) = some k)
    (harg : compileScalarExpr ctx arg schema = .ok (.compiled f t)) :
    compileExpr ctx (.aggregateFunction name [arg] rt) schema
        = .ok (.aggregateFunction k [f] rt)
      ∧ (∀ nm : String, toLowercase nm = "avg" →
          compileExpr ctx (.aggregateFunction nm [arg] rt) schema = .panic)
      ∧ aggregateTypeOfName "min" = some .min
      ∧ aggregateTypeOfName "max" = some .max
      ∧ aggregateTypeOfName "count" = some .count
      ∧ aggregateTypeOfName "sum" = some .sum
      ∧ aggregateTypeOfName "avg" = none := by
  have havg : aggregateTypeOfName "avg" = none := by decide
  refine ⟨?_, ?_, by decide, by decide, by decide, by decide, havg⟩
  · simp only [compileExpr, List.length_cons, List.length_nil, List.map,
      collectOutcomes, harg, hk, mapGetFunc, RuntimeExpr.getFunc,
      Option.map, if_pos]
  · intro nm hnm
    simp only [compileExpr, List.length_cons, List.length_nil, List.map,
      collectOutcomes, harg, hnm, havg, if_pos]

theorem aggregate_compile_witness :
    compileExpr ctx0 (.aggregateFunction "SUM" [.column 0] .int32) schema2
      = .ok (.aggregateFunction .sum [columnEvaluator 0] .int32) := by
  obtain ⟨h1, -⟩ := aggregate_compile ctx0 schema2 "SUM" (.column 0) .int32
      .sum (columnEvaluator 0) .int32 (by decide) rfl
  exact h1
